import Mathlib

/-!
Verification of the context-aware retrieval and ranking engine of the
project-samarth repository (backend/services/enhanced_rag_engine.py,
backend/services/enhanced_vector_store.py, backend/main.py).

The Python code is shallowly embedded: dictionaries become structures with
`Option` fields (an absent key is `none`), floats become exact rationals
(`ℚ`), the opaque FAISS nearest-neighbour search and the text splitter are
parameters, and Python exceptions become explicit `Except`/result
constructors.  Every definition is translated from the source file it
names.
-/

namespace Samarth

/-! String utilities (ASCII models of `str.lower`, `str.title`,
`str.strip` emptiness, substring membership, `int` of a digit string) -/

/-- ASCII model of Python `str.lower` on a single character. -/
def lowerChar (c : Char) : Char :=
  if 'A' ≤ c ∧ c ≤ 'Z' then Char.ofNat (c.toNat + 32) else c

/-- ASCII model of Python `str.upper` on a single character. -/
def upperChar (c : Char) : Char :=
  if 'a' ≤ c ∧ c ≤ 'z' then Char.ofNat (c.toNat - 32) else c

/-- Is the character an ASCII letter (the cased characters occurring in the
gazetteer of states and crops)? -/
def isAsciiAlphaC (c : Char) : Bool :=
  ('a' ≤ c && c ≤ 'z') || ('A' ≤ c && c ≤ 'Z')

/-- Python `s.lower()` (ASCII range; the source only lowercases English
question text and metadata values). -/
def strLower (s : String) : String := ⟨s.data.map lowerChar⟩

/-- Helper for `pyTitle`: the flag records whether the previous character
was a letter. -/
def pyTitleGo : Bool → List Char → List Char
  | _, [] => []
  | prevAlpha, c :: rest =>
    (if isAsciiAlphaC c then (if prevAlpha then lowerChar c else upperChar c) else c)
      :: pyTitleGo (isAsciiAlphaC c) rest

/-- Python `s.title()`: the first letter of every letter-run is uppercased,
the rest lowercased (ASCII range, as used on the state/crop gazetteer). -/
def pyTitle (s : String) : String := ⟨pyTitleGo false s.data⟩

/-- Helper for `subStr`: does `needle` occur in the haystack? -/
def subStrGo (needle : List Char) : List Char → Bool
  | [] => needle.isEmpty
  | c :: rest => needle.isPrefixOf (c :: rest) || subStrGo needle rest

/-- Python `needle in hay` on strings (substring containment). -/
def subStr (needle : String) (hay : List Char) : Bool :=
  subStrGo needle.data hay

/-- Python whitespace characters recognised by `str.strip` (ASCII range). -/
def isPyWS (c : Char) : Bool :=
  c == ' ' || c == '\t' || c == '\n' || c == '\r' || c == Char.ofNat 11 || c == Char.ofNat 12

/-- Python `not s.strip()`: the string is empty or all whitespace. -/
def pyStripEmpty (s : String) : Bool := s.data.all isPyWS

/-- Python `int(m)` for a non-empty decimal digit string. -/
def digitsVal (l : List Char) : Nat :=
  l.foldl (fun a c => 10 * a + (c.toNat - 48)) 0

/-! A small regex evaluator.

The classifier only uses patterns that are alternating literal runs,
single-character classes, and `.*` gaps (e.g. `pm.*dhan.*dhaanya`,
`budget.*202[45]`).  A pattern is a list of segments separated by `.*`;
a segment is a concatenation of pieces.  `re.search` truthiness for this
class of patterns is: the segments occur in order, the first anywhere,
and each `.*` gap crosses no newline (regex `.` excludes `'\n'`).
Because every segment here is fixed-length and newline-free, taking each
occurrence leftmost is complete, so the evaluator below decides exactly
`re.search(pattern, s) is not None`. -/

inductive RPiece
  | lit (s : String)
  | cls (s : String)
deriving Repr, DecidableEq

/-- Match one piece at the head of the text, returning the rest. -/
def pieceMatch : RPiece → List Char → Option (List Char)
  | .lit l, s => if l.data.isPrefixOf s then some (s.drop l.length) else none
  | .cls _, [] => none
  | .cls cs, c :: rest => if cs.data.contains c then some rest else none

/-- Match a segment (concatenated pieces) at the head of the text. -/
def piecesMatch : List RPiece → List Char → Option (List Char)
  | [], s => some s
  | p :: ps, s =>
    match pieceMatch p s with
    | some s2 => piecesMatch ps s2
    | none => none

/-- Find the leftmost occurrence of a segment without crossing a newline
(the `.*` gap), returning the text after the occurrence. -/
def gapFind (ps : List RPiece) : List Char → Option (List Char)
  | [] => piecesMatch ps []
  | c :: rest =>
    match piecesMatch ps (c :: rest) with
    | some r => some r
    | none => if c == '\n' then none else gapFind ps rest

/-- Match the remaining segments, each after a `.*` gap. -/
def matchTail : List (List RPiece) → List Char → Bool
  | [], _ => true
  | seg :: rest, s =>
    match gapFind seg s with
    | some r => matchTail rest r
    | none => false

/-- Scan every start position for the first segment (the scan itself may
cross newlines, as `re.search` restarts at every index). -/
def reSearchGo (seg1 : List RPiece) (rest : List (List RPiece)) : List Char → Bool
  | [] =>
    match piecesMatch seg1 [] with
    | some r => matchTail rest r
    | none => false
  | c :: cs =>
    (match piecesMatch seg1 (c :: cs) with
     | some r => matchTail rest r
     | none => false) || reSearchGo seg1 rest cs

/-- `re.search(pattern, s)` truthiness for the pattern class above. -/
def reSearch (p : List (List RPiece)) (s : List Char) : Bool :=
  match p with
  | [] => true
  | seg1 :: rest => reSearchGo seg1 rest s

/-! Data model -/

/-- Chunk metadata dictionary: an absent key is `none`, distinguished from
an empty string.  `year` is an integer when present (the observed data
shape; the source guards with `isinstance(doc_year, (int, float))`). -/
structure Metadata where
  source : Option String := none
  state : Option String := none
  crop : Option String := none
  year : Option Int := none
  category : Option String := none
  scheme : Option String := none
  url : Option String := none
  budget : Option String := none
  focus_area : Option String := none
deriving Repr, DecidableEq

/-- A langchain `Document`: page content plus metadata. -/
structure Doc where
  page_content : String
  metadata : Metadata
deriving Repr, DecidableEq

/-- The intent dictionary built by `parse_2025_query`. -/
structure QueryIntent where
  type : Option String := none
  states : List String := []
  crops : List String := []
  years : List Int := []
  metrics : List String := []
  schemes : List String := []
  policies : List String := []
deriving Repr, DecidableEq

/-- One element of the list returned by `retrieve_relevant_data`
(the dict with keys content / metadata / score / relevance_boost). -/
structure RetrievedChunk where
  content : String
  metadata : Metadata
  score : ℚ
  relevance_boost : ℚ
deriving Repr, DecidableEq

/-- A citation dict built by `_extract_enhanced_citations`.  The Python
code puts the string `'N/A'` for an absent year; that placeholder is
modelled as `none`. -/
structure Citation where
  id : String
  source : String
  url : String
  state : String
  year : Option Int
  category : String
  scheme : String
  reliability : String
deriving Repr, DecidableEq

/-! Intent classifier: `parse_2025_query`
(enhanced_rag_engine.py, lines 42-128) -/

/-- The `scheme_patterns` table (enhanced_rag_engine.py lines 57-64),
each regex translated to the evaluator's segment form. -/
def scheme_patterns : List (String × List (List (List RPiece))) :=
  [("pm_dhan_dhaanya", [[[.lit "pm"], [.lit "dhan"], [.lit "dhaanya"]],
                        [[.lit "dhan"], [.lit "dhaanya"]]]),
   ("bharati", [[[.lit "bharati"]], [[.lit "bharti"], [.lit "initiative"]]]),
   ("pkvy", [[[.lit "pkvy"]], [[.lit "paramparagat"], [.lit "krishi"]]]),
   ("enam", [[[.lit "e-nam"]], [[.lit "enam"]],
             [[.lit "national"], [.lit "agriculture"], [.lit "market"]]]),
   ("soil_health", [[[.lit "soil"], [.lit "health"], [.lit "card"]], [[.lit "shc"]]]),
   ("kisan_credit", [[[.lit "kisan"], [.lit "credit"], [.lit "card"]], [[.lit "kcc"]]])]

/-- The `policy_patterns` list (lines 74-78): the raw pattern string (which
the code appends to `intent['policies']`) paired with its translation. -/
def policy_patterns : List (String × List (List RPiece)) :=
  [("budget.*202[45]", [[.lit "budget"], [.lit "202", .cls "45"]]),
   ("allocation", [[.lit "allocation"]]),
   ("government.*scheme", [[.lit "government"], [.lit "scheme"]]),
   ("ministry.*agriculture", [[.lit "ministry"], [.lit "agriculture"]]),
   ("atmanirbhar", [[.lit "atmanirbhar"]]),
   ("self.*relian", [[.lit "self"], [.lit "relian"]]),
   ("expenditure", [[.lit "expenditure"]]),
   ("funding", [[.lit "funding"]])]

/-- The `indian_states` gazetteer (lines 101-106). -/
def indian_states : List String :=
  ["punjab", "haryana", "uttar pradesh", "bihar", "west bengal",
   "maharashtra", "gujarat", "rajasthan", "madhya pradesh",
   "karnataka", "tamil nadu", "andhra pradesh", "telangana",
   "kerala", "odisha", "jharkhand", "chhattisgarh"]

/-- The `major_crops` list (lines 113-116). -/
def major_crops : List String :=
  ["rice", "wheat", "cotton", "sugarcane", "pulses", "oilseeds",
   "maize", "bajra", "jowar", "barley", "gram", "tur", "moong"]

/-- Python `re.findall(r'20[0-9]{2}', question)`: non-overlapping left-to-right
matches of `20` followed by two digits, duplicates retained. -/
def findall20xx : List Char → List String
  | '2' :: '0' :: c :: d :: rest =>
    if c.isDigit && d.isDigit then (⟨['2', '0', c, d]⟩ : String) :: findall20xx rest
    else findall20xx ('0' :: c :: d :: rest)
  | _ :: rest => findall20xx rest
  | [] => []

/-- Source `parse_2025_query` (enhanced_rag_engine.py lines 42-128).  The scheme
loop appends a scheme id once if any of its patterns matches and sets
`type` to `scheme_query`; the policy loop appends the raw pattern string
for every hit and sets `type` to `policy_query` only if still unset; the
keyword fallback then runs only if `type` is still unset; states and
crops are substring hits over the lowercased question, title-cased;
years are regex matches over the original question. -/
def parse_2025_query (question : String) : QueryIntent :=
  let ql := (strLower question).data
  let schemes := scheme_patterns.filterMap fun pr =>
    if pr.2.any fun p => reSearch p ql then some pr.1 else none
  let type0 : Option String := if schemes.isEmpty then none else some "scheme_query"
  let policies := policy_patterns.filterMap fun pr =>
    if reSearch pr.2 ql then some pr.1 else none
  let type1 : Option String :=
    if type0.isNone && !policies.isEmpty then some "policy_query" else type0
  let type2 : Option String :=
    match type1 with
    | some t => some t
    | none =>
      if subStr "compare" ql || subStr "comparison" ql then some "comparison"
      else if ["trend", "over time", "years", "decade"].any fun w => subStr w ql then
        some "trend"
      else if ["correlate", "relationship", "impact", "effect"].any fun w => subStr w ql then
        some "correlation"
      else if ["recommend", "suggest", "advice"].any fun w => subStr w ql then
        some "recommendation"
      else some "general"
  let states := indian_states.filterMap fun st =>
    if subStr st ql then some (pyTitle st) else none
  let crops := major_crops.filterMap fun cr =>
    if subStr cr ql then some (pyTitle cr) else none
  let years := (findall20xx question.data).map fun m => (digitsVal m.data : Int)
  { type := type2, states := states, crops := crops, years := years,
    metrics := [], schemes := schemes, policies := policies }

/-! Vector store: `enhanced_vector_store.py` -/

/-- The cumulative multiplicative weight computed per candidate inside
`similarity_search_with_government_context` (lines 169-193): recency,
government-policy source, agriculture/crop category, non-empty scheme,
and whitelisted source, accumulated in source order.  `metadata.get` with
a default is `Option.getD`; Python truthiness of `metadata.get('scheme')`
is "present and non-empty". -/
def government_context_weight (md : Metadata) : ℚ :=
  let w0 : ℚ := 1
  let w1 := if 2024 ≤ md.year.getD 0 then w0 * 1.2 else w0
  let w2 := if md.source == some "government_policy" then w1 * 1.15 else w1
  let w3 :=
    if subStr "agriculture" (strLower (md.category.getD "")).data
        || subStr "crop" (strLower (md.category.getD "")).data then w2 * 1.1 else w2
  let w4 := if md.scheme.getD "" != "" then w3 * 1.1 else w3
  let w5 :=
    if ["data.gov.in", "imd", "ministry_agriculture"].any fun s => md.source == some s then
      w4 * 1.05
    else w4
  w5

/-- Source `similarity_search_with_government_context` (lines 156-207), with the
raw FAISS hit list (`similarity_search_with_score(query, k*3)` output,
lower score = more similar) supplied as the `raw` parameter since FAISS
and the embedding backend are opaque collaborators.  Each hit is weighted,
the list is sorted ascending by adjusted score (Python `list.sort` is
stable, as is `mergeSort`), truncated to `k`, and projected back to
(document, adjusted score) pairs. -/
def similarity_search_with_government_context
    (raw : List (Doc × ℚ)) (k : Nat) : List (Doc × ℚ) :=
  let weighted_results := raw.map fun p =>
    (p.1, p.2 / government_context_weight p.1.metadata, government_context_weight p.1.metadata)
  let sorted := weighted_results.mergeSort fun a b => decide (a.2.1 ≤ b.2.1)
  (sorted.take k).map fun t => (t.1, t.2.1)

/-- Error taxonomy named by the specification for index construction.
The source never raises it; the constructor exists so that the build
result type can express "failed with EmptyCorpus". -/
inductive BuildError
  | emptyCorpus
deriving Repr, DecidableEq

/-- Outcome of `create_optimized_index`: an early `return` that leaves
`self.vectorstore` unset, a successfully built index over the processed
texts, or a propagated error. -/
inductive BuildResult
  | noIndex
  | built (texts : List String) (metadatas : List Metadata)
  | raised (e : BuildError)
deriving Repr, DecidableEq

/-- An input chunk dict for `create_optimized_index`
(`chunk.get('text', '')`, `chunk.get('metadata', {})`). -/
structure KChunk where
  text : String := ""
  metadata : Metadata := {}
deriving Repr, DecidableEq

/-- Source `create_optimized_index` (enhanced_vector_store.py lines 42-95).
`split_text` is the external `RecursiveCharacterTextSplitter.split_text`.
Empty input, or input whose every text is empty/whitespace, takes the
early-return paths (`if not chunks` / `if not texts`): the function logs
and returns with no index built and no exception raised. -/
def create_optimized_index
    (split_text : String → List String) (chunks : List KChunk) : BuildResult :=
  if chunks.isEmpty then .noIndex
  else
    let texts := chunks.flatMap fun ch =>
      if pyStripEmpty ch.text then []
      else if 1000 < ch.text.length then split_text ch.text
      else [ch.text]
    let metadatas := chunks.flatMap fun ch =>
      if pyStripEmpty ch.text then []
      else if 1000 < ch.text.length then (split_text ch.text).map fun _ => ch.metadata
      else [ch.metadata]
    if texts.isEmpty then .noIndex
    else .built texts metadatas

/-- The persisted index descriptor relevant to loading: the on-disk
embedding dimensionality and vector count (`optimization_info.json` /
the serialized FAISS index). -/
structure SavedIndex where
  dimension : Nat
  total_vectors : Nat
deriving Repr, DecidableEq

/-- Error taxonomy named by the specification for index loading.  The
source never raises it; the constructor exists so that the load result
type can express "failed with CorpusMismatch". -/
inductive LoadError
  | corpusMismatch
deriving Repr, DecidableEq

/-- Outcome of `load_local`: the missing-path early return (store left
unset), a loaded index, or a propagated error. -/
inductive LoadResult
  | noStore
  | loaded (idx : SavedIndex)
  | raised (e : LoadError)
deriving Repr, DecidableEq

/-- Source `load_local` (enhanced_vector_store.py lines 130-154).  If the path
does not exist it logs and returns; otherwise `FAISS.load_local`
deserializes the index as stored (deserialization performs no
compatibility check against the embedding object it is handed) and the
sidecar `optimization_info.json` is only read for a log line.  The
`backend_dim` parameter is the active embedding backend's output
dimensionality; the source never consults it. -/
def load_local (backend_dim : Nat) (disk : Option SavedIndex) : LoadResult :=
  match disk with
  | none => .noStore
  | some idx => .loaded idx

/-! Retrieval and re-ranking: `retrieve_relevant_data`
(enhanced_rag_engine.py lines 130-191) -/

/-- Python `any(state.lower() in doc_states for state in intent['states'])` where
`doc_states = [metadata.get('state', '').lower()]` (lines 153-154). -/
def state_match (intent : QueryIntent) (md : Metadata) : Bool :=
  intent.states.any fun st => strLower st == strLower (md.state.getD "")

/-- Python `any(crop.lower() in doc_crops for crop in intent['crops'])` where
`doc_crops = [metadata.get('crop', '').lower()]` (lines 161-162). -/
def crop_match (intent : QueryIntent) (md : Metadata) : Bool :=
  intent.crops.any fun cr => strLower cr == strLower (md.crop.getD "")

/-- The per-candidate body of the loop in `retrieve_relevant_data`
(lines 149-175): `relevance_boost` starts at 1.0; a non-empty
`intent['states']` whose members all fail to match hits `continue`
(`none` here); the remaining branches multiply the boost. -/
def retrieve_boost (intent : QueryIntent) (md : Metadata) : Option ℚ :=
  let b0 : ℚ := 1
  if !intent.states.isEmpty && !state_match intent md then none
  else
    let b1 := if !intent.states.isEmpty then b0 * 1.3 else b0
    let b2 := if !intent.crops.isEmpty && crop_match intent md then b1 * 1.2 else b1
    let b3 :=
      if !intent.years.isEmpty && intent.years.contains (md.year.getD 0) then b2 * 1.4
      else b2
    let b4 :=
      if (intent.type == some "scheme_query" || intent.type == some "policy_query")
          && md.source == some "government_policy" then b3 * 1.5
      else b3
    some b4

/-- One iteration of the candidate loop: the surviving candidate dict with
`score = score / relevance_boost` (lines 176-183), or `none` for the
state-filter `continue`. -/
def retrieve_step (intent : QueryIntent) (doc : Doc) (score : ℚ) : Option RetrievedChunk :=
  (retrieve_boost intent doc.metadata).map fun b =>
    { content := doc.page_content, metadata := doc.metadata,
      score := score / b, relevance_boost := b }

/-- Source `retrieve_relevant_data` (lines 130-191): fetch `k*2` candidates from
the government-context search (whose own raw FAISS hits are the `raw`
parameter), filter and boost per intent, sort ascending by adjusted score
(stable), and truncate to `k`. -/
def retrieve_relevant_data
    (intent : QueryIntent) (raw : List (Doc × ℚ)) (k : Nat) : List RetrievedChunk :=
  let results := similarity_search_with_government_context raw (k * 2)
  let filtered_results := results.filterMap fun p => retrieve_step intent p.1 p.2
  (filtered_results.mergeSort fun a b => decide (a.score ≤ b.score)).take k

/-! Citation resolver: `_extract_enhanced_citations`
(enhanced_rag_engine.py lines 333-356) -/

/-- Recognise `r'\[Source (\d+)\]'` at the head of the text: the literal
`[Source ` prefix, a maximal non-empty digit run, then `]`; returns the
digit run. -/
def marker_at (s : List Char) : Option (List Char) :=
  if "[Source ".data.isPrefixOf s then
    let t := s.drop 8
    let digits := t.takeWhile Char.isDigit
    if digits.isEmpty then none
    else
      match t.drop digits.length with
      | ']' :: _ => some digits
      | _ => none
  else none

/-- Python `re.findall(r'\[Source (\d+)\]', answer)`: all matches left to right.
The scan below advances one character at a time; it finds exactly the
non-overlapping matches of `re.findall` because a marker contains `[`
only at its first character, so no match can start inside another. -/
def findMarkers : List Char → List String
  | [] => []
  | c :: rest =>
    match marker_at (c :: rest) with
    | some ds => (⟨ds⟩ : String) :: findMarkers rest
    | none => findMarkers rest

/-- The citation dict built for one marker (lines 345-354). -/
def citation_of (m : String) (md : Metadata) : Citation :=
  { id := m, source := md.source.getD "Unknown", url := md.url.getD "N/A",
    state := md.state.getD "N/A", year := md.year, category := md.category.getD "N/A",
    scheme := md.scheme.getD "N/A",
    reliability := if md.source == some "government_policy" then "High" else "Verified" }

/-- A Python exception escaping `_extract_enhanced_citations`. -/
inductive PyError
  | indexError
deriving Repr, DecidableEq

/-- Python `l[i]` for an `int` index: non-negative indexing from the
front, negative indexing from the back, `none` for the IndexError cases. -/
def pyGet {α : Type} (l : List α) (i : Int) : Option α :=
  if 0 ≤ i then l.get? i.toNat
  else if (-i).toNat ≤ l.length then l.get? (l.length - (-i).toNat)
  else none

/-- The `for match in set(matches)` loop (lines 339-354): for each marker,
`idx = int(match) - 1`; if `idx < len(context)` the chunk at `context[idx]`
(Python indexing, so a negative `idx` counts from the back) yields a
citation; an out-of-range access raises IndexError, aborting the call. -/
def extract_citations_go (ctx : List RetrievedChunk) :
    List String → Except PyError (List Citation)
  | [] => .ok []
  | m :: ms =>
    let idx : Int := (digitsVal m.data : Int) - 1
    if idx < (ctx.length : Int) then
      match pyGet ctx idx with
      | some chunk =>
        (extract_citations_go ctx ms).map fun rest => citation_of m chunk.metadata :: rest
      | none => .error .indexError
    else extract_citations_go ctx ms

/-- Source `_extract_enhanced_citations` (lines 333-356).  `set(matches)` is
modelled as first-occurrence deduplication (CPython's set iteration order
is unspecified; no claim depends on the order). -/
def extract_enhanced_citations (answer : String) (context : List RetrievedChunk) :
    Except PyError (List Citation) :=
  extract_citations_go context ((findMarkers answer.data).eraseDups)

/-! Query endpoint confidence: `main.py` lines 184-186 -/

/-- Python `avg_score = sum(chunk.get('score', 0.5) for chunk in context) /
len(context) if context else 0.5` followed by
`confidence_score = max(0.0, min(1.0, 1.0 - avg_score))`.  Every element
produced by `retrieve_relevant_data` carries a `score` key, so the 0.5
per-chunk default never fires. -/
def confidence_score (context : List RetrievedChunk) : ℚ :=
  let avg_score : ℚ :=
    if context.isEmpty then 0.5
    else (context.map fun c => c.score).sum / (context.length : ℚ)
  max 0 (min 1 (1 - avg_score))

/-- Modelled from the spec: `confidence_score` is derived as
`clamp(1 - mean(adjusted_score over returned context), 0, 1)` when context
is non-empty, else a fixed neutral default of 0.5 (spec section 6).  This
definition follows the spec's words, to be compared with
`confidence_score`, which follows the source. -/
def spec_confidence (scores : List ℚ) : ℚ :=
  if scores = [] then 0.5
  else max 0 (min 1 (1 - scores.sum / (scores.length : ℚ)))

/-! Shared lemmas about the embedded operations. -/

/-- Every output pair of the government-context search is an input document
paired with its raw score divided by its government-context weight. -/
theorem mem_search {p : Doc × ℚ} {raw : List (Doc × ℚ)} {k : Nat}
    (hp : p ∈ similarity_search_with_government_context raw k) :
    ∃ q ∈ raw, p.1 = q.1 ∧ p.2 = q.2 / government_context_weight q.1.metadata := by
  unfold similarity_search_with_government_context at hp
  simp only [List.mem_map] at hp
  obtain ⟨t, ht, rfl⟩ := hp
  have ht2 := List.mem_of_mem_take ht
  rw [List.mem_mergeSort] at ht2
  simp only [List.mem_map] at ht2
  obtain ⟨q, hq, rfl⟩ := ht2
  exact ⟨q, hq, rfl, rfl⟩

/-- A surviving candidate keeps its document's metadata, records the boost
that `retrieve_boost` computed, and divides its score by that boost. -/
theorem retrieve_step_eq_some {intent : QueryIntent} {doc : Doc} {score : ℚ}
    {r : RetrievedChunk} (h : retrieve_step intent doc score = some r) :
    r.metadata = doc.metadata ∧ retrieve_boost intent doc.metadata = some r.relevance_boost ∧
      r.score = score / r.relevance_boost := by
  unfold retrieve_step at h
  cases hb : retrieve_boost intent doc.metadata with
  | none => rw [hb] at h; simp at h
  | some b => rw [hb] at h; simp at h; subst h; simp

/-- A non-nil list is not `isEmpty`. -/
theorem isEmpty_false_of_ne {α : Type} {l : List α} (h : l ≠ []) : l.isEmpty = false := by
  cases l with
  | nil => exact absurd rfl h
  | cons a t => rfl

/-- With a non-empty state set, a candidate that survives `retrieve_boost`
matched one of the intent states. -/
theorem retrieve_boost_state {intent : QueryIntent} {md : Metadata} {b : ℚ}
    (hne : intent.states ≠ []) (h : retrieve_boost intent md = some b) :
    state_match intent md = true := by
  cases hm : state_match intent md with
  | true => rfl
  | false =>
    rw [retrieve_boost] at h
    rw [hm, isEmpty_false_of_ne hne] at h
    simp at h

/-- With a non-empty state set, a candidate whose state matches no intent
state hits the `continue`. -/
theorem retrieve_boost_none {intent : QueryIntent} {md : Metadata}
    (hne : intent.states ≠ []) (hm : state_match intent md = false) :
    retrieve_boost intent md = none := by
  rw [retrieve_boost, hm, isEmpty_false_of_ne hne]
  rfl

/-- Every element of `retrieve_relevant_data`'s output arises from one
candidate of the government-context search via `retrieve_step`. -/
theorem mem_retrieve {intent : QueryIntent} {raw : List (Doc × ℚ)} {k : Nat}
    {r : RetrievedChunk} (hr : r ∈ retrieve_relevant_data intent raw k) :
    ∃ p ∈ similarity_search_with_government_context raw (k * 2),
      retrieve_step intent p.1 p.2 = some r := by
  unfold retrieve_relevant_data at hr
  have h2 := List.mem_of_mem_take hr
  rw [List.mem_mergeSort, List.mem_filterMap] at h2
  exact h2

/-- Unfolding of `state_match`: some intent state agrees with the chunk
state after lowercasing. -/
theorem state_match_spec {intent : QueryIntent} {md : Metadata}
    (h : state_match intent md = true) :
    ∃ st ∈ intent.states, strLower (md.state.getD "") = strLower st := by
  rw [state_match, List.any_eq_true] at h
  obtain ⟨st, hst, he⟩ := h
  exact ⟨st, hst, (beq_iff_eq.mp he).symm⟩

/-- Lowercasing maps the empty string, and only it, to the empty string. -/
theorem strLower_eq_empty_iff (s : String) : strLower s = "" ↔ s = "" := by
  cases s with
  | mk l =>
    simp only [strLower, String.ext_iff]
    simp [List.map_eq_nil_iff]

/-- The government-context weight is a product of factors each at
least one. -/
theorem one_le_gcw (md : Metadata) : 1 ≤ government_context_weight md := by
  simp only [government_context_weight]
  split_ifs <;> norm_num

/-- The intent-level relevance boost of a surviving candidate is at
least one. -/
theorem one_le_retrieve_boost {intent : QueryIntent} {md : Metadata} {b : ℚ}
    (h : retrieve_boost intent md = some b) : 1 ≤ b := by
  rw [retrieve_boost] at h
  by_cases hc : (!intent.states.isEmpty && !state_match intent md) = true
  · rw [if_pos hc] at h; simp at h
  · rw [if_neg hc] at h
    simp only [Option.some_inj] at h
    subst h
    split_ifs <;> norm_num

/-- Every string that `findall20xx` emits is `20` followed by two digits. -/
theorem findall20xx_shape {l : List Char} {m : String} (hm : m ∈ findall20xx l) :
    ∃ c d, m = (⟨['2', '0', c, d]⟩ : String) ∧ c.isDigit = true ∧ d.isDigit = true := by
  induction l using findall20xx.induct with
  | case1 c d rest h ih =>
    rw [findall20xx] at hm
    simp [h] at hm
    rcases hm with h1 | h2
    · exact ⟨c, d, h1, by simpa using h⟩
    · exact ih h2
  | case2 c d rest h ih =>
    rw [findall20xx] at hm
    simp [h] at hm
    exact ih hm
  | case3 head rest hne ih =>
    rw [findall20xx] at hm
    exacts [ih hm, hne]
  | case4 => simp [findall20xx] at hm

/-- An ASCII decimal digit has code point between 48 and 57. -/
theorem isDigit_toNat_bounds {c : Char} (h : c.isDigit = true) :
    48 ≤ c.toNat ∧ c.toNat ≤ 57 := by
  simp [Char.isDigit, Char.le_def, UInt32.le_def, BitVec.le_def] at h
  simp [Char.toNat, UInt32.toNat]
  constructor <;> omega

/-! Claims C1-C10. -/

/-- Claim C1: when `intent.states` is non-empty, every element returned by
`retrieve_relevant_data` has a chunk metadata state that is
case-insensitively a member of `intent.states` (non-matching candidates
are discarded before weighting), and when no candidate's state matches the
result is the empty list rather than an error. -/
theorem C1_state_hard_filter (intent : QueryIntent) (raw : List (Doc × ℚ)) (k : Nat)
    (hne : intent.states ≠ []) :
    (∀ r ∈ retrieve_relevant_data intent raw k,
        ∃ st ∈ intent.states, strLower (r.metadata.state.getD "") = strLower st) ∧
    ((∀ q ∈ raw, state_match intent q.1.metadata = false) →
        retrieve_relevant_data intent raw k = []) := by
  constructor
  · intro r hr
    obtain ⟨p, hp, hstep⟩ := mem_retrieve hr
    obtain ⟨hmd, hb, _⟩ := retrieve_step_eq_some hstep
    have hsm := retrieve_boost_state hne hb
    rw [← hmd] at hsm
    exact state_match_spec hsm
  · intro hall
    simp only [retrieve_relevant_data]
    have hnil : (similarity_search_with_government_context raw (k * 2)).filterMap
        (fun p => retrieve_step intent p.1 p.2) = [] := by
      rw [List.filterMap_eq_nil_iff]
      intro p hp
      obtain ⟨q, hq, hd, _⟩ := mem_search hp
      have hm : state_match intent p.1.metadata = false := by rw [hd]; exact hall q hq
      rw [retrieve_step, retrieve_boost_none hne hm]
      rfl
    rw [hnil, List.mergeSort_nil, List.take_nil]

/-- Witness for C1 at a concrete intent and candidate list. -/
theorem C1_state_hard_filter_witness :
    ({ states := ["Punjab"] } : QueryIntent).states ≠ [] ∧
    ((∀ r ∈ retrieve_relevant_data { states := ["Punjab"] }
          [(⟨"a", { state := some "punjab" }⟩, 2), (⟨"b", { state := some "Kerala" }⟩, 1)] 5,
        ∃ st ∈ ({ states := ["Punjab"] } : QueryIntent).states,
          strLower (r.metadata.state.getD "") = strLower st) ∧
     ((∀ q ∈ [((⟨"a", { state := some "punjab" }⟩ : Doc), (2 : ℚ)),
              (⟨"b", { state := some "Kerala" }⟩, 1)],
          state_match { states := ["Punjab"] } q.1.metadata = false) →
        retrieve_relevant_data { states := ["Punjab"] }
          [(⟨"a", { state := some "punjab" }⟩, 2), (⟨"b", { state := some "Kerala" }⟩, 1)] 5
          = [])) :=
  ⟨by decide, C1_state_hard_filter _ _ _ (by decide)⟩

/-- Claim C2 (code bug): a `[Source 0]` marker is NOT silently ignored.
`idx = int('0') - 1 = -1` passes the `idx < len(context)` bounds check, and
Python's negative indexing resolves `context[-1]` to the LAST context
element, fabricating a citation with id `"0"`; with an empty context the
same marker raises IndexError instead.  This theorem evaluates the
embedded code at the failing input. -/
theorem C2_source_zero_fabricates_citation :
    extract_enhanced_citations "[Source 0]"
        [{ content := "txt", metadata := { state := some "Punjab" },
           score := 1, relevance_boost := 1 }] =
      .ok [{ id := "0", source := "Unknown", url := "N/A", state := "Punjab", year := none,
             category := "N/A", scheme := "N/A", reliability := "Verified" }] ∧
    extract_enhanced_citations "[Source 0]" [] = .error PyError.indexError :=
  ⟨rfl, rfl⟩

/-- Claim C3: in both weighting stages the cumulative multiplicative
weight starts at 1.0 and only ever grows, so it is at least 1.0, and the
adjusted score (raw score divided by the weight) is at most the raw score
whenever the raw score is non-negative — stated for the weight functions
themselves, for every surviving candidate of the intent-level stage, and
for every output of the index-level search. -/
theorem C3_weight_monotonicity :
    (∀ md : Metadata, 1 ≤ government_context_weight md) ∧
    (∀ (intent : QueryIntent) (md : Metadata) (b : ℚ),
        retrieve_boost intent md = some b → 1 ≤ b) ∧
    (∀ (md : Metadata) (s : ℚ), 0 ≤ s → s / government_context_weight md ≤ s) ∧
    (∀ (intent : QueryIntent) (doc : Doc) (s : ℚ) (r : RetrievedChunk),
        retrieve_step intent doc s = some r →
          1 ≤ r.relevance_boost ∧ (0 ≤ s → r.score ≤ s)) ∧
    (∀ (raw : List (Doc × ℚ)) (k : Nat) (p : Doc × ℚ),
        p ∈ similarity_search_with_government_context raw k →
          ∃ q ∈ raw, p.1 = q.1 ∧ p.2 = q.2 / government_context_weight q.1.metadata ∧
            (0 ≤ q.2 → p.2 ≤ q.2)) := by
  refine ⟨one_le_gcw, fun _ _ _ h => one_le_retrieve_boost h, ?_, ?_, ?_⟩
  · intro md s hs
    exact div_le_self hs (one_le_gcw md)
  · intro intent doc s r h
    obtain ⟨_, hb, hsc⟩ := retrieve_step_eq_some h
    have h1 := one_le_retrieve_boost hb
    exact ⟨h1, fun hs => hsc ▸ div_le_self hs h1⟩
  · intro raw k p hp
    obtain ⟨q, hq, hd, hsc⟩ := mem_search hp
    exact ⟨q, hq, hd, hsc, fun h0 => hsc ▸ div_le_self h0 (one_le_gcw q.1.metadata)⟩

/-- Witness for C3 at a concrete metadata record and score. -/
theorem C3_weight_monotonicity_witness :
    (0 : ℚ) ≤ 2 ∧ (2 : ℚ) / government_context_weight {} ≤ 2 :=
  ⟨by decide, C3_weight_monotonicity.2.2.1 {} 2 (by decide)⟩

/-- Claim C4 counterexample: building from the empty chunk list does NOT
fail with an `EmptyCorpus` error — the call returns leaving no index, so
the claim's "fails with an EmptyCorpus error" is false at `[]`. -/
theorem C4_empty_corpus_counterexample :
    create_optimized_index (fun _ => []) [] = BuildResult.noIndex ∧
    create_optimized_index (fun _ => []) [] ≠ BuildResult.raised BuildError.emptyCorpus := by
  decide

/-- Claim C4 (amended): building the index from an empty chunk list — or
from a list whose every chunk has empty or whitespace-only text — produces
no index object, but it does so by returning early (after a log line)
rather than by raising an `EmptyCorpus` error. -/
theorem C4_empty_corpus_no_error (split_text : String → List String)
    (chunks : List KChunk)
    (h : chunks = [] ∨ ∀ ch ∈ chunks, pyStripEmpty ch.text = true) :
    create_optimized_index split_text chunks = BuildResult.noIndex := by
  rcases h with rfl | hall
  · rfl
  · simp only [create_optimized_index]
    have htx : (chunks.flatMap fun ch =>
        if pyStripEmpty ch.text then []
        else if 1000 < ch.text.length then split_text ch.text
        else [ch.text]) = [] := by
      rw [List.flatMap_eq_nil_iff]
      intro ch hch
      rw [if_pos (hall ch hch)]
    rw [htx]
    simp

/-- Witness for C4 at a whitespace-only chunk list. -/
theorem C4_empty_corpus_no_error_witness :
    (∀ ch ∈ [({ text := " " } : KChunk)], pyStripEmpty ch.text = true) ∧
    create_optimized_index (fun _ => []) [{ text := " " }] = BuildResult.noIndex :=
  ⟨by decide, C4_empty_corpus_no_error _ _ (Or.inr (by decide))⟩

/-- Claim C5 counterexample: loading a persisted index whose stored
dimensionality (512) differs from the embedding backend's output
dimensionality (384) does NOT fail with `CorpusMismatch` — the index is
accepted as-is. -/
theorem C5_load_counterexample :
    load_local 384 (some ⟨512, 10⟩) = LoadResult.loaded ⟨512, 10⟩ ∧
    load_local 384 (some ⟨512, 10⟩) ≠ LoadResult.raised LoadError.corpusMismatch ∧
    (512 : Nat) ≠ 384 := by
  decide

/-- Claim C5 (amended): `load_local` performs no dimensionality
validation at all — whatever index is on disk is accepted unchanged,
whatever the active embedding backend's dimensionality; a mismatch is not
detected at load time. -/
theorem C5_load_no_validation (backend_dim : Nat) (idx : SavedIndex) :
    load_local backend_dim (some idx) = LoadResult.loaded idx := rfl

/-- Claim C6 counterexample: a year occurring twice in the question
contributes TWO elements to `years` — the list is not deduplicated. -/
theorem C6_years_counterexample :
    (parse_2025_query "Rainfall in 2024 and in 2024").years = [2024, 2024] ∧
    (parse_2025_query "Rainfall in 2024 and in 2024").years ≠ [2024] := by
  decide

/-- Claim C6 (amended): `years` is the LIST of integers formed from the
left-to-right non-overlapping matches of `20` followed by two digits in
the original (non-lower-cased) question, duplicates retained (not
collapsed to a set); every extracted year lies between 2000 and 2099. -/
theorem C6_years_extraction (q : String) :
    (parse_2025_query q).years =
      (findall20xx q.data).map (fun m => (digitsVal m.data : Int)) ∧
    ∀ y ∈ (parse_2025_query q).years, 2000 ≤ y ∧ y ≤ 2099 := by
  refine ⟨rfl, ?_⟩
  intro y hy
  have he : (parse_2025_query q).years =
      (findall20xx q.data).map (fun m => (digitsVal m.data : Int)) := rfl
  rw [he, List.mem_map] at hy
  obtain ⟨m, hm, rfl⟩ := hy
  obtain ⟨c, d, rfl, hc, hd⟩ := findall20xx_shape hm
  obtain ⟨hc1, hc2⟩ := isDigit_toNat_bounds hc
  obtain ⟨hd1, hd2⟩ := isDigit_toNat_bounds hd
  have h2 : ('2' : Char).toNat = 50 := rfl
  have h0 : ('0' : Char).toNat = 48 := rfl
  simp [digitsVal, List.foldl, h2, h0]
  omega

/-- Witness for C6 at a concrete question. -/
theorem C6_years_extraction_witness :
    (parse_2025_query "Rains of 2024 and 2024").years =
      (findall20xx "Rains of 2024 and 2024".data).map (fun m => (digitsVal m.data : Int)) ∧
    ∀ y ∈ (parse_2025_query "Rains of 2024 and 2024").years, 2000 ≤ y ∧ y ≤ 2099 :=
  C6_years_extraction "Rains of 2024 and 2024"

/-- Claim C7 counterexample: with the shared raw similarity score 0, two
chunks identical except for year 2024 versus 2020 receive DIFFERENT
weights (the recency multiplier fires) but EQUAL adjusted scores
(0 divided by anything is 0), so the 2024 chunk's adjusted score is not
strictly lower as the claim states for every identical raw score. -/
theorem C7_recency_counterexample :
    government_context_weight { year := some 2024 } ≠
      government_context_weight { year := some 2020 } ∧
    (0 : ℚ) / government_context_weight { year := some 2024 } =
      (0 : ℚ) / government_context_weight { year := some 2020 } ∧
    ¬((0 : ℚ) / government_context_weight { year := some 2024 } <
      (0 : ℚ) / government_context_weight { year := some 2020 }) := by
  norm_num [government_context_weight, subStr, subStrGo, strLower]

/-- Claim C7 (amended): for any two candidate chunks identical in all
metadata except year 2024 versus 2020, and any shared POSITIVE raw score,
the 2024 chunk's adjusted score in the weighted search is strictly lower
(ranked higher), due to the recency multiplier ×1.2 alone.  (At raw score
exactly 0 the adjusted scores coincide.) -/
theorem C7_recency_boost (md : Metadata) (s : ℚ) (hs : 0 < s) :
    s / government_context_weight { md with year := some 2024 } <
      s / government_context_weight { md with year := some 2020 } := by
  obtain ⟨src, st, cr, yr, cat, sch, url, bud, foc⟩ := md
  simp only [government_context_weight, Option.getD_some]
  norm_num
  split_ifs <;>
    (rw [div_lt_div_iff_of_pos_left hs (by norm_num) (by norm_num)]; norm_num)

/-- Witness for C7 at the empty metadata record and raw score 1. -/
theorem C7_recency_boost_witness :
    (0 : ℚ) < 1 ∧
    (1 : ℚ) / government_context_weight { ({} : Metadata) with year := some 2024 } <
      (1 : ℚ) / government_context_weight { ({} : Metadata) with year := some 2020 } :=
  ⟨by decide, C7_recency_boost {} 1 (by decide)⟩

/-- Claim C8: the question "Rice production in Punjab in 2024" parses to
states exactly Punjab, crops exactly Rice, years exactly 2024, and the
general query type (no scheme, policy, comparison, trend, correlation or
recommendation rule fires). -/
theorem C8_entity_year_scenario :
    (parse_2025_query "Rice production in Punjab in 2024").states = ["Punjab"] ∧
    (parse_2025_query "Rice production in Punjab in 2024").crops = ["Rice"] ∧
    (parse_2025_query "Rice production in Punjab in 2024").years = [2024] ∧
    (parse_2025_query "Rice production in Punjab in 2024").type = some "general" ∧
    (parse_2025_query "Rice production in Punjab in 2024").schemes = [] ∧
    (parse_2025_query "Rice production in Punjab in 2024").policies = [] := by
  decide

/-- Claim C9: the query endpoint's confidence score equals the
specification's formula — `clamp(1 - mean(adjusted scores), 0, 1)` for a
non-empty context and exactly 0.5 for an empty one (`spec_confidence` is
written from the spec's words, `confidence_score` from the source). -/
theorem C9_confidence_formula (context : List RetrievedChunk) :
    confidence_score context = spec_confidence (context.map fun c => c.score) := by
  cases context with
  | nil => simp [confidence_score, spec_confidence]; norm_num
  | cons a l => simp [confidence_score, spec_confidence]

/-- Claim C10: when `intent.states` is non-empty (its members being state
names, in particular non-empty strings), a candidate chunk with no state
field, or with an empty-string state field, is discarded by
`retrieve_relevant_data` regardless of score: `metadata.get('state', '')`
reads the missing field as the empty string, which matches no intent
state case-insensitively. -/
theorem C10_stateless_chunks_discarded (intent : QueryIntent) (raw : List (Doc × ℚ))
    (k : Nat) (hne : intent.states ≠ []) (hok : ∀ st ∈ intent.states, st ≠ "") :
    ∀ r ∈ retrieve_relevant_data intent raw k,
      r.metadata.state ≠ none ∧ r.metadata.state ≠ some "" := by
  intro r hr
  obtain ⟨p, hp, hstep⟩ := mem_retrieve hr
  obtain ⟨hmd, hb, _⟩ := retrieve_step_eq_some hstep
  have hsm := retrieve_boost_state hne hb
  rw [← hmd] at hsm
  obtain ⟨st, hst, he⟩ := state_match_spec hsm
  have hst' : strLower st ≠ "" := fun hc =>
    (hok st hst) ((strLower_eq_empty_iff st).mp hc)
  have hgd : r.metadata.state.getD "" ≠ "" := by
    intro hc
    rw [hc] at he
    exact hst' (he.symm ▸ rfl)
  cases hs : r.metadata.state with
  | none => rw [hs] at hgd; simp at hgd
  | some v =>
    rw [hs] at hgd
    simp only [Option.getD_some] at hgd
    exact ⟨by simp, by simp [hgd]⟩

/-- Witness for C10 at a concrete intent and a state-less candidate. -/
theorem C10_stateless_chunks_discarded_witness :
    ({ states := ["Punjab"] } : QueryIntent).states ≠ [] ∧
    (∀ st ∈ ({ states := ["Punjab"] } : QueryIntent).states, st ≠ "") ∧
    ∀ r ∈ retrieve_relevant_data { states := ["Punjab"] }
        [(⟨"nation-wide figures", {}⟩, 1), (⟨"punjab figures", { state := some "punjab" }⟩, 3)] 4,
      r.metadata.state ≠ none ∧ r.metadata.state ≠ some "" :=
  ⟨by decide, by decide,
    C10_stateless_chunks_discarded _ _ _ (by decide) (by decide)⟩

end Samarth
